import Mathlib

/-!
Verification development for the NvidiaCourse repository.

The repository consists of two Jupyter notebooks:

* a data-augmentation notebook (ASL sign-language digits): load CSV data,
  one-hot the labels, normalize and reshape pixels, build a sequential
  convolutional model, create an augmenting ImageDataGenerator, fit the
  generator, compile and train the model, save it to the asl_model directory;
* an assessment notebook (fresh/rotten fruit): load a VGG16 base pretrained
  on ImageNet, freeze it, add a pooling layer and a 6-way softmax head,
  compile, augment and load directory data, train, unfreeze and recompile
  for fine tuning, train again, evaluate, and call the external grader
  run_assessment(model, test_it).

Every cell is a straight-line library invocation; the development below
embeds the cell sequences as concrete step lists, the library-call
configurations as structures transcribed argument by argument from the
cells, and the few bits of library semantics the claims depend on
(one-hot encoding, pixel normalization, parameter counting, the
trainable-flag discipline of fit) as executable definitions.
-/

namespace NvidiaCourse

/-- Configuration of a Keras ImageDataGenerator, restricted to the option
fields that the two generator-construction cells of the repository set;
every Keras option not listed here is left at its inert default value by
both cells. Rotation is in degrees, the range fields are fractions. -/
structure ImageDataGenerator where
  samplewise_center : Bool := false
  rotation_range : ℕ := 0
  zoom_range : ℚ := 0
  width_shift_range : ℚ := 0
  height_shift_range : ℚ := 0
  horizontal_flip : Bool := false
  vertical_flip : Bool := false
deriving DecidableEq, Repr

/-- The generator built in the data-augmentation (ASL) notebook:
rotation_range=10, zoom_range=0.1, width_shift_range=0.1,
height_shift_range=0.1, horizontal_flip=True, vertical_flip=False. -/
def aslDatagen : ImageDataGenerator :=
  { rotation_range := 10
    zoom_range := 1/10
    width_shift_range := 1/10
    height_shift_range := 1/10
    horizontal_flip := true
    vertical_flip := false }

/-- The generator built in the assessment notebook: identical to the ASL
one except that it additionally sets samplewise_center=True. -/
def assessmentDatagen : ImageDataGenerator :=
  { samplewise_center := true
    rotation_range := 10
    zoom_range := 1/10
    width_shift_range := 1/10
    height_shift_range := 1/10
    horizontal_flip := true
    vertical_flip := false }

/-- All ImageDataGenerator instances constructed anywhere in the repository. -/
def repoGenerators : List ImageDataGenerator := [aslDatagen, assessmentDatagen]

/-- Loss functions passed to compile calls in the repository. The
binaryCrossentropy constructor records the from_logits flag. -/
inductive LossFn
  | categoricalCrossentropy
  | binaryCrossentropy (fromLogitsFlag : Bool)
deriving DecidableEq, Repr

/-- Metrics passed to compile calls in the repository. -/
inductive MetricFn
  | accuracy
  | binaryAccuracy
deriving DecidableEq, Repr

/-- Arguments of a model.compile call: the loss, the metric list, and the
explicit optimizer learning rate when one is given (the other compile calls
use the default optimizer). -/
structure CompileConfig where
  loss : LossFn
  metrics : List MetricFn
  lrOpt : Option ℚ
deriving DecidableEq, Repr

/-- Variable names that appear as arguments of the grading call. -/
inductive VarName
  | modelV
  | testItV
deriving DecidableEq, Repr

/-- Filesystem paths the repository writes or reads. -/
inductive RepoPath
  | aslModelDir
  | fruitsTrainDir
  | fruitsTestDir
deriving DecidableEq, Repr

/-- Data source handed to a fit call: the ASL notebook passes
datagen.flow(x_train, y_train), the assessment notebook passes the
directory iterators from flow_from_directory. -/
inductive DataSource
  | generatorFlow
  | directoryIterator
deriving DecidableEq, Repr

/-- One notebook code-cell operation. The constructors are transcribed cell
by cell from the two notebooks; markdown cells contribute nothing. -/
inductive Step
  | loadCsvData
  | buildSequentialModel
  | createGenerator (g : ImageDataGenerator)
  | generatorFit
  | compileModel (c : CompileConfig)
  | fitModel (src : DataSource)
  | saveModel (p : RepoPath)
  | loadBaseModel
  | freezeBase
  | unfreezeBase
  | buildFunctionalModel
  | summaryCell
  | flowFromDirectory (p : RepoPath)
  | evaluateModel
  | importGrader
  | callGrader (a b : VarName)
  | clearMemory
deriving DecidableEq, Repr

/-- Compile configuration of the single compile cell of the ASL notebook:
loss=categorical_crossentropy, metrics=[accuracy]. -/
def aslCompile : CompileConfig :=
  { loss := .categoricalCrossentropy, metrics := [.accuracy], lrOpt := none }

/-- Compile configuration of the first compile cell of the assessment
notebook: loss=categorical_crossentropy, metrics=[accuracy]. -/
def initialAssessmentCompile : CompileConfig :=
  { loss := .categoricalCrossentropy, metrics := [.accuracy], lrOpt := none }

/-- Compile configuration of the fine-tuning compile cell of the assessment
notebook: optimizer RMSprop with learning_rate=0.00001,
loss=BinaryCrossentropy(from_logits=True), metrics=[BinaryAccuracy()]. -/
def fineTuneCompile : CompileConfig :=
  { loss := .binaryCrossentropy true
    metrics := [.binaryAccuracy]
    lrOpt := some (1/100000) }

/-- The code cells of the data-augmentation (ASL) notebook, in execution
order: load and prepare the CSV data, build the sequential model, create the
augmenting generator, fit the generator on x_train, compile, train on the
generator flow, save to the asl_model directory, and shut the kernel down. -/
def aslNotebook : List Step :=
  [ .loadCsvData
  , .buildSequentialModel
  , .createGenerator aslDatagen
  , .generatorFit
  , .compileModel aslCompile
  , .fitModel .generatorFlow
  , .saveModel .aslModelDir
  , .clearMemory ]

/-- The code cells of the assessment notebook, in execution order: load the
pretrained VGG16 base, freeze it, build the functional model with the 6-way
softmax head, print the summary, compile, create the augmenting generator,
build the train and test directory iterators, train, unfreeze the base,
recompile for fine tuning, train again, evaluate on the test iterator, pull
in the external grader, and invoke it on (model, test_it). -/
def assessmentNotebook : List Step :=
  [ .loadBaseModel
  , .freezeBase
  , .buildFunctionalModel
  , .summaryCell
  , .compileModel initialAssessmentCompile
  , .createGenerator assessmentDatagen
  , .flowFromDirectory .fruitsTrainDir
  , .flowFromDirectory .fruitsTestDir
  , .fitModel .directoryIterator
  , .unfreezeBase
  , .compileModel fineTuneCompile
  , .fitModel .directoryIterator
  , .evaluateModel
  , .importGrader
  , .callGrader .modelV .testItV ]

/-- Recognizes the invocation of the external grading entry point. -/
def isGraderCall : Step → Bool
  | .callGrader _ _ => true
  | _ => false

/-- Recognizes the import of the external grading entry point. -/
def isGraderImport : Step → Bool
  | .importGrader => true
  | _ => false

/-- Recognizes a model.save call. -/
def isSaveStep : Step → Bool
  | .saveModel _ => true
  | _ => false

/-- Recognizes a model.compile call. -/
def isCompileStep : Step → Bool
  | .compileModel _ => true
  | _ => false

/-- Recognizes a model.fit call. -/
def isFitStep : Step → Bool
  | .fitModel _ => true
  | _ => false

/-- Recognizes the cell freezing the pretrained base. -/
def isFreezeStep : Step → Bool
  | .freezeBase => true
  | _ => false

/-- Recognizes the cell unfreezing the pretrained base. -/
def isUnfreezeStep : Step → Bool
  | .unfreezeBase => true
  | _ => false

/-- Recognizes the data-loading cell of the ASL notebook. -/
def isLoadDataStep : Step → Bool
  | .loadCsvData => true
  | _ => false

/-- Recognizes the model-construction cell of the ASL notebook. -/
def isBuildModelStep : Step → Bool
  | .buildSequentialModel => true
  | _ => false

/-- The paths a step persists to disk. Only model.save writes anything. -/
def persistsPath : Step → List RepoPath
  | .saveModel p => [p]
  | _ => []

/-- The compile configuration carried by a step, when it is a compile call. -/
def compileConfigOf : Step → Option CompileConfig
  | .compileModel c => some c
  | _ => none

/-- Activation functions used by layers of the repository. -/
inductive Activation
  | relu
  | softmax
deriving DecidableEq, Repr

/-- A dense (fully connected) layer description: unit count and activation. -/
structure DenseLayer where
  units : ℕ
  activation : Activation
deriving DecidableEq, Repr

/-- num_classes = 25 in the ASL model-construction cell. -/
def num_classes : ℕ := 25

/-- Layers of the ASL sequential model, transcribed from its construction
cell (filter counts, dropout rates, unit counts and activations as written;
kernel sizes, strides and padding are the same in every conv and pool call
and are carried by the parameter-count function below). -/
inductive AslLayer
  | conv2d (filters : ℕ) (activation : Activation)
  | batchNorm
  | maxPool
  | dropout (rate : ℚ)
  | flattenLayer
  | dense (d : DenseLayer)
deriving DecidableEq, Repr

/-- The ASL sequential model, cell 2 of the data-augmentation notebook. -/
def aslModelLayers : List AslLayer :=
  [ .conv2d 75 .relu
  , .batchNorm
  , .maxPool
  , .conv2d 50 .relu
  , .dropout (2/10)
  , .batchNorm
  , .maxPool
  , .conv2d 25 .relu
  , .batchNorm
  , .maxPool
  , .flattenLayer
  , .dense { units := 512, activation := .relu }
  , .dropout (3/10)
  , .dense { units := num_classes, activation := .softmax } ]

/-- Layers of the functional assessment model built from the frozen base. -/
inductive AssessLayer
  | inputLayer
  | vggBase
  | globalAvgPool
  | denseHead (d : DenseLayer)
deriving DecidableEq, Repr

/-- The functional assessment model: Input(224,224,3) fed through the VGG16
base, a GlobalAveragePooling2D layer, and a Dense(6, softmax) head. -/
def assessmentModelLayers : List AssessLayer :=
  [ .inputLayer
  , .vggBase
  , .globalAvgPool
  , .denseHead { units := 6, activation := .softmax } ]

/-- Parameter count of a 3x3 same-padding convolution with bias, from inC
to outC channels: (3*3*inC + 1) * outC. -/
def convParams (inC outC : ℕ) : ℕ := (3 * 3 * inC + 1) * outC

/-- Channel pairs (input, output) of the thirteen 3x3 convolutions of the
VGG16 convolutional base loaded with include_top=False; the parameter total
this yields is the 14,714,688 recorded for the vgg16 layer by the
model.summary output kept in the assessment notebook. -/
def vgg16ConvChannels : List (ℕ × ℕ) :=
  [ (3, 64), (64, 64)
  , (64, 128), (128, 128)
  , (128, 256), (256, 256), (256, 256)
  , (256, 512), (512, 512), (512, 512)
  , (512, 512), (512, 512), (512, 512) ]

/-- Parameter count of the pretrained VGG16 base (pooling layers have no
parameters). -/
def baseModelParams : ℕ :=
  (vgg16ConvChannels.map fun p => convParams p.1 p.2).sum

/-- Parameter count of a dense layer with bias on inF input features. -/
def denseParams (inF outF : ℕ) : ℕ := inF * outF + outF

/-- Output channel count of the VGG16 base, hence the feature count that
GlobalAveragePooling2D hands to the dense head. -/
def baseOutputChannels : ℕ := 512

/-- Parameter count of the assessment head: Dense(6) on the 512 pooled
features, 512*6 + 6 = 3078 parameters (the dense layer row of the recorded
model.summary). -/
def headParams : ℕ := denseParams baseOutputChannels 6

/-- Control state of the assessment notebook that the claims track: the
trainable flag of the pretrained base. VGG16 loads with trainable=True. -/
structure ControlState where
  baseTrainable : Bool
deriving DecidableEq, Repr

/-- Effect of a step on the control state: only the two assignment cells
base_model.trainable = False / True touch it. -/
def controlStep : ControlState → Step → ControlState
  | _, .freezeBase => { baseTrainable := false }
  | _, .unfreezeBase => { baseTrainable := true }
  | s, _ => s

/-- Control state when VGG16 has just been loaded: Keras models load with
trainable=True. -/
def initialControl : ControlState := { baseTrainable := true }

/-- Control state after the first n steps of the assessment notebook. -/
def ctrlAfter (n : ℕ) : ControlState :=
  (assessmentNotebook.take n).foldl controlStep initialControl

/-- Number of trainable parameters of the assessment model in a given
control state: the head is always trainable, the base only when unfrozen. -/
def trainableParams (s : ControlState) : ℕ :=
  (if s.baseTrainable then baseModelParams else 0) + headParams

/-- Number of frozen (non-trainable) parameters of the assessment model in
a given control state. -/
def frozenParams (s : ControlState) : ℕ :=
  if s.baseTrainable then 0 else baseModelParams

/-- Weights of the assessment model: one value per parameter of the VGG16
base and one per parameter of the dense head. -/
structure Weights where
  baseW : Fin baseModelParams → ℤ
  headW : Fin headParams → ℤ

/-- Full training state of the assessment notebook: the control state, the
current weights, and how many fit calls completed so far. -/
structure TrainState where
  ctrl : ControlState
  w : Weights
  fitCount : ℕ

/-- Effect of one assessment-notebook step on the training state. The
semantics of the library calls is the Keras contract: loading the base
installs the pretrained weights, a fit call may replace the weights of
trainable layers with arbitrary new values (supplied here by the oracle
upd, one per fit call) and leaves the weights of non-trainable layers
untouched, the two trainable assignments flip the control flag, and every
other cell leaves weights and flags alone. -/
def stepTrain (pretrained : Weights) (upd : ℕ → Weights) :
    TrainState → Step → TrainState
  | s, .loadBaseModel => { s with w := { s.w with baseW := pretrained.baseW } }
  | s, .freezeBase => { s with ctrl := { baseTrainable := false } }
  | s, .unfreezeBase => { s with ctrl := { baseTrainable := true } }
  | s, .fitModel _ =>
      { ctrl := s.ctrl
        fitCount := s.fitCount + 1
        w :=
          { baseW := if s.ctrl.baseTrainable then (upd s.fitCount).baseW else s.w.baseW
            headW := (upd s.fitCount).headW } }
  | s, _ => s

/-- Straight-line execution of a step list in the exception monad: each
library call either returns normally or raises, and the notebooks install
no handler, so the first error aborts the remaining steps and is returned
unchanged. The per-step outcome function eff is arbitrary (it stands for
whatever the external framework does, including raising). -/
def runSteps {σ ε : Type} (eff : Step → σ → Except ε σ) :
    List Step → σ → Except ε σ
  | [], s => .ok s
  | st :: rest, s =>
      match eff st s with
      | .error e => .error e
      | .ok s2 => runSteps eff rest s2

/-- Artifacts produced and consumed by notebook steps. -/
inductive Artifact
  | rawCsv
  | imageFolder
  | preparedData
  | modelArch
  | generatorObj
  | generatorStats
  | compiledModel
  | trainedModel
  | savedModelDir
  | baseModelObj
  | dataIterator
  | graderFn
deriving DecidableEq, Repr

/-- Artifacts a step produces, read off the assignments of each cell. -/
def produces : Step → List Artifact
  | .loadCsvData => [.preparedData]
  | .buildSequentialModel => [.modelArch]
  | .createGenerator _ => [.generatorObj]
  | .generatorFit => [.generatorStats]
  | .compileModel _ => [.compiledModel]
  | .fitModel _ => [.trainedModel]
  | .saveModel _ => [.savedModelDir]
  | .loadBaseModel => [.baseModelObj]
  | .buildFunctionalModel => [.modelArch]
  | .flowFromDirectory _ => [.dataIterator]
  | .importGrader => [.graderFn]
  | _ => []

/-- Artifacts a step consumes, read off the arguments of each cell. -/
def consumes : Step → List Artifact
  | .loadCsvData => [.rawCsv]
  | .generatorFit => [.generatorObj, .preparedData]
  | .compileModel _ => [.modelArch]
  | .fitModel .generatorFlow => [.compiledModel, .generatorObj, .generatorStats, .preparedData]
  | .fitModel .directoryIterator => [.compiledModel, .dataIterator]
  | .saveModel _ => [.trainedModel]
  | .freezeBase => [.baseModelObj]
  | .unfreezeBase => [.baseModelObj]
  | .buildFunctionalModel => [.baseModelObj]
  | .summaryCell => [.modelArch]
  | .flowFromDirectory _ => [.generatorObj, .imageFolder]
  | .evaluateModel => [.trainedModel, .dataIterator]
  | .callGrader _ _ => [.trainedModel, .dataIterator, .graderFn]
  | _ => []

/-- Artifacts present before any cell runs: the files on disk. -/
def externalInputs : List Artifact := [.rawCsv, .imageFolder]

/-- Every step of the list consumes only artifacts available at its turn:
external inputs or artifacts produced by an earlier step. -/
def wellOrderedFrom : List Artifact → List Step → Bool
  | _, [] => true
  | avail, st :: rest =>
      (consumes st).all (fun a => avail.contains a) &&
        wellOrderedFrom (produces st ++ avail) rest

/-- Modelled from the spec: the external grading script run_assessment is
supplied outside this repository; per the spec it is a pass/fail check of
the accuracy reported by the evaluation of the model on the test iterator
against the fixed threshold of 92 percent (0.92). -/
def gradingPasses (accuracy : ℚ) : Bool := decide (92/100 ≤ accuracy)

/-- Keras to_categorical as invoked on the labels: the one-hot vector of
length numClasses with a single 1 at the label index (library semantics per
its documentation). -/
def to_categorical (numClasses y : ℕ) : List ℚ :=
  (List.range numClasses).map fun i => if i = y then 1 else 0

/-- The normalization step of the data-preparation cell: x / 255 applied to
every pixel byte. -/
def normalizePixel (v : ℕ) : ℚ := (v : ℚ) / 255

/-- Shape of one example: height, width, channels. -/
structure ExampleShape where
  ht : ℕ
  wd : ℕ
  ch : ℕ
deriving DecidableEq, Repr

/-- numpy reshape(-1, h, w, c) on an n-by-k matrix: succeeds exactly when a
row holds h*w*c values, giving n examples of shape (h, w, c). The ASL CSV
rows hold 784 pixel values once the label column is removed (the images are
28x28 grayscale flattened). -/
def reshapeExamples (rows cols h wd c : ℕ) : Option (ℕ × ExampleShape) :=
  if cols = h * wd * c then some (rows, { ht := h, wd := wd, ch := c }) else none

/-- Color modes accepted by flow_from_directory. -/
inductive ColorMode
  | rgb
  | rgba
  | grayscale
deriving DecidableEq, Repr

/-- Channel count of a color mode (library semantics). -/
def colorModeChannels : ColorMode → ℕ
  | .rgb => 3
  | .rgba => 4
  | .grayscale => 1

/-- Example shape produced by flow_from_directory for a target size and a
color mode (library semantics). -/
def flowShape (target : ℕ × ℕ) (m : ColorMode) : ExampleShape :=
  { ht := target.1, wd := target.2, ch := colorModeChannels m }

/-- Class count of the fruit dataset: the six category folders the
assessment text describes, matching the Dense(6) head and the recorded
flow_from_directory output (1182 and 329 images in 6 classes). -/
def fruitNumClasses : ℕ := 6

/-- The image-transformation envelope that claim C5 asserts of every
generator: the generator modifies images only by rotation up to 10 degrees,
zoom up to 10 percent, shifts up to 10 percent of the image size, and
horizontal flips. Since the claim says these are the only perturbations,
every other image-modifying option must be off; in particular samplewise
centering (which rewrites every pixel of every sample) must be disabled,
and vertical_flip must be false. -/
def onlyClaimedPerturbations (g : ImageDataGenerator) : Prop :=
  g.samplewise_center = false ∧
  g.rotation_range ≤ 10 ∧
  g.zoom_range ≤ 1/10 ∧
  g.width_shift_range ≤ 1/10 ∧
  g.height_shift_range ≤ 1/10 ∧
  g.vertical_flip = false

/-- C5 as stated is false: not every generator of the repository perturbs
images only by the four listed transformations, because the assessment
generator additionally sets samplewise_center=True, which re-centers every
sample. -/
theorem c5_only_listed_perturbations_counterexample :
    ¬ (∀ g ∈ repoGenerators, onlyClaimedPerturbations g) := by
  intro h
  have hc := (h assessmentDatagen (by simp [repoGenerators])).1
  simp [assessmentDatagen] at hc

/-- C5 amended: both generators of the repository use rotation_range=10,
zoom_range=0.1, width_shift_range=0.1, height_shift_range=0.1,
horizontal_flip=True and vertical_flip=False, and the ASL generator applies
no other transformation; the assessment generator additionally applies
samplewise centering (samplewise_center=True). -/
theorem c5_generator_options :
    repoGenerators = [aslDatagen, assessmentDatagen] ∧
    aslDatagen.rotation_range = 10 ∧
    aslDatagen.zoom_range = 1/10 ∧
    aslDatagen.width_shift_range = 1/10 ∧
    aslDatagen.height_shift_range = 1/10 ∧
    aslDatagen.horizontal_flip = true ∧
    aslDatagen.vertical_flip = false ∧
    aslDatagen.samplewise_center = false ∧
    assessmentDatagen.rotation_range = 10 ∧
    assessmentDatagen.zoom_range = 1/10 ∧
    assessmentDatagen.width_shift_range = 1/10 ∧
    assessmentDatagen.height_shift_range = 1/10 ∧
    assessmentDatagen.horizontal_flip = true ∧
    assessmentDatagen.vertical_flip = false ∧
    assessmentDatagen.samplewise_center = true := by
  exact ⟨rfl, rfl, rfl, rfl, rfl, rfl, rfl, rfl, rfl, rfl, rfl, rfl, rfl, rfl, rfl⟩

/-- C3: across both notebooks there is exactly one invocation of the
external grading entry point, run_assessment(model, test_it), with the
trained model as first argument and the test iterator as second; and the
grader is imported exactly once. -/
theorem c3_single_grader_call :
    (aslNotebook ++ assessmentNotebook).filter isGraderCall
      = [.callGrader .modelV .testItV] ∧
    (aslNotebook ++ assessmentNotebook).filter isGraderImport
      = [.importGrader] := by
  decide

/-- C1: the external grading check (modelled from the spec) passes exactly
when the reported accuracy is at least 92 percent, and the single grader
invocation of c3 is the only acceptance check in the repository: no other
step of either notebook invokes a grader, and no step asserts anything. -/
theorem c1_grading_threshold :
    (∀ a : ℚ, gradingPasses a = true ↔ 92/100 ≤ a) ∧
    ((aslNotebook ++ assessmentNotebook).filter isGraderCall).length = 1 ∧
    (aslNotebook ++ assessmentNotebook).filter isGraderCall
      = [.callGrader .modelV .testItV] := by
  refine ⟨fun a => ?_, by decide, by decide⟩
  simp [gradingPasses]

/-- C2 fails on the code: the assessment notebook, the only notebook that
invokes the grading entry point, contains no model.save call at all, so its
grading invocation is not preceded by a save of the graded model; the only
save in the repository is in the ASL notebook, which grades nothing. -/
theorem c2_no_save_before_grading :
    assessmentNotebook.filter isSaveStep = [] ∧
    assessmentNotebook.filter isGraderCall = [.callGrader .modelV .testItV] ∧
    aslNotebook.filter isSaveStep = [.saveModel .aslModelDir] ∧
    aslNotebook.filter isGraderCall = [] := by
  decide

/-- C6: in the ASL notebook the data is loaded first (index 0), the model
is built next (index 1), training comes after generator setup and compile
(index 5) with the generator flow as data source, the save follows training
(index 6), and every step consumes only artifacts produced by earlier steps
or present on disk. -/
theorem c6_asl_pipeline_order :
    aslNotebook.findIdx isLoadDataStep = 0 ∧
    aslNotebook.findIdx isBuildModelStep = 1 ∧
    aslNotebook.findIdx isFitStep = 5 ∧
    aslNotebook.findIdx isSaveStep = 6 ∧
    aslNotebook.findIdx isLoadDataStep < aslNotebook.findIdx isBuildModelStep ∧
    aslNotebook.findIdx isBuildModelStep < aslNotebook.findIdx isFitStep ∧
    aslNotebook.findIdx isFitStep < aslNotebook.findIdx isSaveStep ∧
    aslNotebook[5]? = some (.fitModel .generatorFlow) ∧
    wellOrderedFrom externalInputs aslNotebook = true := by
  decide

/-- C4: in the assessment notebook the base is frozen (index 1) before the
first compile (index 4); through the first fit call (index 8) the base is
still frozen, so that fit can update only the 3,078 parameters of the dense
head while the 14,714,688 base parameters are non-trainable; whatever
values the framework writes during that fit, the base weights afterwards
are exactly the pretrained ones; and the single unfreeze happens only at
index 9, the fine-tuning cell after the first fit. -/
theorem c4_base_frozen_through_first_fit
    (pretrained : Weights) (upd : ℕ → Weights) (s0 : TrainState) :
    assessmentNotebook.findIdx isFreezeStep = 1 ∧
    assessmentNotebook.findIdx isCompileStep = 4 ∧
    assessmentNotebook.findIdx isFitStep = 8 ∧
    assessmentNotebook.findIdx isUnfreezeStep = 9 ∧
    assessmentNotebook.findIdx isFreezeStep < assessmentNotebook.findIdx isCompileStep ∧
    assessmentNotebook.findIdx isFitStep < assessmentNotebook.findIdx isUnfreezeStep ∧
    (assessmentNotebook.filter isUnfreezeStep).length = 1 ∧
    (ctrlAfter 8).baseTrainable = false ∧
    trainableParams (ctrlAfter 8) = 3078 ∧
    frozenParams (ctrlAfter 8) = 14714688 ∧
    baseModelParams = 14714688 ∧
    headParams = 3078 ∧
    ((List.range 8).all fun n => (ctrlAfter (n + 2)).baseTrainable == false) = true ∧
    (ctrlAfter 10).baseTrainable = true ∧
    ((assessmentNotebook.take 9).foldl (stepTrain pretrained upd) s0).w.baseW
      = pretrained.baseW := by
  refine ⟨?_, ?_, ?_, ?_, ?_, ?_, ?_, ?_, ?_, ?_, ?_, ?_, ?_, ?_, ?_⟩ <;>
    first
      | rfl
      | decide

/-- Splitting lemma for the straight-line runner: running a concatenation
runs the first part and, if it succeeded, the second from where it left
off. -/
theorem runSteps_append {σ ε : Type} (eff : Step → σ → Except ε σ)
    (l1 l2 : List Step) (s : σ) :
    runSteps eff (l1 ++ l2) s =
      match runSteps eff l1 s with
      | .error e => .error e
      | .ok s2 => runSteps eff l2 s2 := by
  induction l1 generalizing s with
  | nil => rfl
  | cons a t ih =>
      cases h : eff a s with
      | error e => simp [runSteps, h]
      | ok s2 => simp [runSteps, h, ih]

/-- C7: the notebooks install no exception handler, so when any library
call raises, the error propagates to the caller unchanged and no further
step of the cell sequence runs: the whole run returns exactly the error of
the first failing call. -/
theorem c7_errors_propagate_unchanged {σ ε : Type}
    (eff : Step → σ → Except ε σ) (s0 s1 : σ) (e : ε)
    (pre post : List Step) (st : Step)
    (hsplit : aslNotebook ++ assessmentNotebook = pre ++ st :: post)
    (hpre : runSteps eff pre s0 = .ok s1)
    (hfail : eff st s1 = .error e) :
    runSteps eff (aslNotebook ++ assessmentNotebook) s0 = .error e := by
  rw [hsplit, runSteps_append eff pre (st :: post) s0, hpre]
  simp [runSteps, hfail]

/-- A concrete failure oracle: the very first library call raises error 7. -/
def failOnLoadEff : Step → ℕ → Except ℕ ℕ
  | .loadCsvData, _ => .error 7
  | _, s => .ok s

/-- Witness for c7_errors_propagate_unchanged at a concrete effect
function: with the first cell raising error 7, the whole run returns
exactly error 7. -/
theorem c7_errors_propagate_unchanged_witness :
    runSteps failOnLoadEff (aslNotebook ++ assessmentNotebook) 0 = .error 7 :=
  c7_errors_propagate_unchanged failOnLoadEff 0 0 7 []
    ((aslNotebook ++ assessmentNotebook).tail) .loadCsvData rfl rfl rfl

/-- C8: after preparation every ASL example is a 28x28x1 pixel array (the
reshape succeeds on the 784-pixel rows and yields that shape), every
assessment example is 224x224x3 (target size 224x224 in rgb mode), the
targets range over 25 ASL classes and 6 fruit classes (the final layers are
a 25-way and a 6-way softmax), and across both notebooks the only path
persisted to disk is the saved-model directory asl_model. -/
theorem c8_example_shapes_and_artifacts :
    (∀ n : ℕ, reshapeExamples n 784 28 28 1
        = some (n, { ht := 28, wd := 28, ch := 1 })) ∧
    flowShape (224, 224) .rgb = { ht := 224, wd := 224, ch := 3 } ∧
    num_classes = 25 ∧
    fruitNumClasses = 6 ∧
    aslModelLayers.getLast?
      = some (.dense { units := 25, activation := .softmax }) ∧
    assessmentModelLayers.getLast?
      = some (.denseHead { units := 6, activation := .softmax }) ∧
    ((aslNotebook ++ assessmentNotebook).map persistsPath).flatten
      = [.aslModelDir] := by
  exact ⟨fun n => rfl, rfl, rfl, rfl, rfl, rfl, rfl⟩

/-- C9: for every label below 25, to_categorical with 25 classes yields a
vector of length 25 whose entry at the label index is 1 and whose other
entries are 0; and normalization maps every byte value v at most 255 to
v/255, which lies in the interval from 0 to 1. -/
theorem c9_one_hot_and_normalization (y v : ℕ) (hy : y < 25) (hv : v ≤ 255) :
    (to_categorical 25 y).length = 25 ∧
    (to_categorical 25 y).getD y 0 = 1 ∧
    (∀ i : ℕ, i < 25 → i ≠ y → (to_categorical 25 y).getD i 0 = 0) ∧
    normalizePixel v = (v : ℚ) / 255 ∧
    0 ≤ normalizePixel v ∧
    normalizePixel v ≤ 1 := by
  refine ⟨?_, ?_, ?_, rfl, ?_, ?_⟩
  · simp [to_categorical]
  · simp [to_categorical, List.getD_eq_getElem?_getD, List.getElem?_map,
      List.getElem?_range, hy]
  · intro i hi hne
    simp [to_categorical, List.getD_eq_getElem?_getD, List.getElem?_map,
      List.getElem?_range, hi, hne]
  · unfold normalizePixel
    positivity
  · unfold normalizePixel
    rw [div_le_one (by norm_num : (0:ℚ) < 255)]
    exact_mod_cast hv

/-- Witness for c9_one_hot_and_normalization at label 3 and byte 200. -/
theorem c9_one_hot_and_normalization_witness :
    3 < 25 ∧ 200 ≤ 255 ∧
    ((to_categorical 25 3).length = 25 ∧
      (to_categorical 25 3).getD 3 0 = 1 ∧
      (∀ i : ℕ, i < 25 → i ≠ 3 → (to_categorical 25 3).getD i 0 = 0) ∧
      normalizePixel 200 = (200 : ℚ) / 255 ∧
      0 ≤ normalizePixel 200 ∧
      normalizePixel 200 ≤ 1) :=
  ⟨by decide, by decide,
    c9_one_hot_and_normalization 3 200 (by decide) (by decide)⟩

/-- C10: the fine-tuning cell recompiles the assessment model with
BinaryCrossentropy(from_logits=True) and a BinaryAccuracy metric, although
the output layer of the model is a 6-way softmax; this differs from the
categorical_crossentropy / accuracy configuration of the initial compile. -/
theorem c10_fine_tune_compile_mismatch :
    assessmentNotebook.filterMap compileConfigOf
      = [initialAssessmentCompile, fineTuneCompile] ∧
    fineTuneCompile.loss = .binaryCrossentropy true ∧
    fineTuneCompile.metrics = [.binaryAccuracy] ∧
    fineTuneCompile.lrOpt = some (1/100000) ∧
    initialAssessmentCompile.loss = .categoricalCrossentropy ∧
    initialAssessmentCompile.metrics = [.accuracy] ∧
    assessmentModelLayers.getLast?
      = some (.denseHead { units := 6, activation := .softmax }) ∧
    fineTuneCompile.loss ≠ initialAssessmentCompile.loss := by
  refine ⟨rfl, rfl, rfl, rfl, rfl, rfl, rfl, by decide⟩

end NvidiaCourse
